import Mathlib

/-!
Verification development for the BaseProjects utility repository:
shallow embedding of `utils/module.py`, `apps/utils.py`, `utils/misc.py`
and `config/deviceconfig.py`, together with theorems settling the
specification claims about them.

Conventions of the embedding:
* Python exceptions escaping a function are modelled with `Except String`;
  a caught exception is part of the normal control flow of the definition.
* Python `None` becomes `Option.none`; truthiness of strings is spelled out.
* The importable-module universe, the filesystem, the network and the
  digest primitives are parameters (association lists / functions), since
  they are external to the code under verification.
-/

/-- Single-quote character, used to reproduce the quoting in the Python
error message strings without writing a quote literal in source. -/
def quoteChar : Char := '\''

/-- Split a character list at every occurrence of the character `c`
(Python `str.split(c)` semantics: `n` separators yield `n + 1` parts). -/
def splitOnCharAux (c : Char) : List Char → List Char → List (List Char)
  | [], acc => [acc.reverse]
  | x :: xs, acc =>
    if x = c then acc.reverse :: splitOnCharAux c xs []
    else splitOnCharAux c xs (x :: acc)

/-- `s.split(c)` for a one-character separator (structural, so that the
kernel can evaluate it on concrete inputs). -/
def splitOnChar (c : Char) (s : String) : List String :=
  (splitOnCharAux c s.data []).map String.mk

/-- Python `str.strip()` / `str.lower()` and friends, reimplemented
structurally over the character list. -/
def strTrim (s : String) : String :=
  String.mk (((s.data.dropWhile Char.isWhitespace).reverse.dropWhile Char.isWhitespace).reverse)

/-- `str.lower()`. -/
def strToLower (s : String) : String :=
  String.mk (s.data.map Char.toLower)

/-- `s.endswith(post)`. -/
def strEndsWith (s post : String) : Bool :=
  post.data.reverse.isPrefixOf s.data.reverse

/-- Concatenate with a separator between elements. -/
def strIntercalate (sep : String) : List String → String
  | [] => ""
  | [s] => s
  | s :: rest => s ++ sep ++ strIntercalate sep rest

/-- Parse a nonempty all-digit character list as a natural number. -/
def digitsToNatAux : List Char → Nat → Option Nat
  | [], acc => some acc
  | c :: cs, acc =>
    if c.isDigit then digitsToNatAux cs (acc * 10 + (c.toNat - 48)) else none

/-- Drop the trailing characters of `s` that belong to `cs`
(the Python `str.rstrip(chars)`). -/
def rstripChars (cs : List Char) (s : String) : String :=
  String.mk ((s.data.reverse.dropWhile (fun c => cs.contains c)).reverse)

/-- Last `/`-separated component of a path string (the `Path(...).name`
of a string already stripped of trailing separators). -/
def lastComponent (s : String) : String :=
  (splitOnChar '/' s).getLastD ""

/-- Embedding of `_basename` from `apps/utils.py`: on a POSIX host the
stripped set `os.path.sep + (os.path.altsep or "") + "/ "` is `{/, space}`;
then `Path(...).name` takes the final component. -/
def pyBasename (p : String) : String :=
  lastComponent (rstripChars ['/', ' '] p)

/-- `Path(p).name`: `pathlib` drops trailing slashes, then takes the final
component. -/
def pathName (p : String) : String :=
  lastComponent (rstripChars ['/'] p)

/-- `Path(a, b)` for the shapes used by `extractall` (relative `b`;
`Path(a, "")` is `Path(a)`). -/
def pathJoin (a b : String) : String :=
  if b = "" then a else a ++ "/" ++ b

/-- Substring test (`needle in hay` on Python strings). -/
def strContains (hay needle : String) : Bool :=
  (List.range (hay.length + 1)).any (fun i => needle.data.isPrefixOf (hay.data.drop i))

/-- `true` exactly when the modelled Python call raised. -/
def raisesError {α : Type} : Except String α → Bool
  | .error _ => true
  | .ok _ => false

/-! ## Embedding of `BaseProjects/utils/module.py` -/

/-- A Python object as far as the version helpers inspect it: it may carry
a `__version__` attribute. -/
structure PyObj where
  version? : Option String
deriving DecidableEq

/-- An importable module: the module object itself, whether it is a
namespace package (`__file__ is None and hasattr(__path__)`), and its
resolvable attributes (for the `name` argument of `optional_import`). -/
structure PyModule where
  obj : PyObj
  isNamespace : Bool
  attrs : List (String × PyObj)
deriving DecidableEq

/-- The interpreter import state: modules that import successfully.
A name that is absent models `import_module` raising. -/
abbrev PyEnv := List (String × PyModule)

/-- `import_module(m)`: `some` on success, `none` when the import raises. -/
def importModule (env : PyEnv) (m : String) : Option PyModule :=
  (env.find? (fun p => p.1 = m)).map (·.2)

/-- Python `int(s)` on a decimal string: optional surrounding whitespace,
optional sign, then nonempty decimal digits; anything else raises
`ValueError`.  (Underscore digit grouping is not used by any version
string here.) -/
def pyInt? (s : String) : Option Int :=
  match (strTrim s).data with
  | [] => none
  | '-' :: rest =>
    if rest = [] then none else (digitsToNatAux rest 0).map (fun n => -(n : Int))
  | '+' :: rest =>
    if rest = [] then none else (digitsToNatAux rest 0).map (fun n => (n : Int))
  | l => (digitsToNatAux l 0).map (fun n => (n : Int))

/-- `tuple(int(x) for x in s.split(".")[:2])` — the version-tuple parse in
`min_version`; a non-numeric component raises `ValueError`. -/
def parseVersionPrefix2 (s : String) : Except String (List Int) :=
  match ((splitOnChar '.' s).take 2).mapM pyInt? with
  | some l => .ok l
  | none => .error ("ValueError: invalid literal for int() with base 10 in " ++ s)

/-- Python tuple `>=` on int tuples (lexicographic; a proper prefix is
smaller). -/
def tupleGe : List Int → List Int → Bool
  | _, [] => true
  | [], _ :: _ => false
  | a :: as, b :: bs => if a > b then true else if a < b then false else tupleGe as bs

/-- Embedding of `min_version`: `True` when `min_version_str` is empty or
the module has no `__version__`; otherwise both version strings are parsed
(which may raise) and the first two components are compared. -/
def min_version (the_module : PyObj) (min_version_str : String) : Except String Bool :=
  match the_module.version? with
  | none => .ok true
  | some v =>
    if min_version_str = "" then .ok true
    else do
      let mod_version ← parseVersionPrefix2 v
      let required ← parseVersionPrefix2 min_version_str
      .ok (tupleGe mod_version required)

/-- Embedding of `optional_import`.  The `try` block covers the import,
the namespace-package check and the attribute resolution; any exception
there yields `(None, False)`.  The `min_version` call happens in the
`else` clause, OUTSIDE the `try`, so an exception it raises propagates. -/
def optional_import (env : PyEnv) (module : String) (version : String) (name : String) :
    Except String (Option PyObj × Bool) :=
  match importModule env module with
  | none => .ok (none, false)
  | some pkg =>
    if pkg.isNamespace then .ok (none, false)
    else
      let the_module? : Option PyObj :=
        if name = "" then some pkg.obj
        else (pkg.attrs.find? (fun p => p.1 = name)).map (·.2)
      match the_module? with
      | none => .ok (none, false)
      | some the_module =>
        match min_version the_module version with
        | .error e => .error e
        | .ok true => .ok (some the_module, true)
        | .ok false => .ok (none, false)

/-- The default string of `get_package_version` exactly as written in the
source (`"NOT INSTALL or UNKNOWN VERSION."`). -/
def GET_PACKAGE_VERSION_DEFAULT : String := "NOT INSTALL or UNKNOWN VERSION."

/-- Embedding of `get_package_version`: load via `optional_import` (with
empty version requirement and no attribute name) and return `__version__`
when present, else `default`. -/
def get_package_version (env : PyEnv) (dep_name : String) (default : String) :
    Except String String :=
  match optional_import env dep_name "" "" with
  | .error e => .error e
  | .ok (dep, has_dep) =>
    match dep, has_dep with
    | some d, true =>
      match d.version? with
      | some v => .ok v
      | none => .ok default
    | _, _ => .ok default

/-- The `supported` argument of `look_up_option`, restricted to the two
shapes this repository uses: a plain collection of strings (membership
test, the matched option itself is returned) and a mapping (lookup by
key, the stored value is returned).  The `EnumMeta` branch of the source
is unused by this repository and not modelled. -/
inductive Supported where
  | collection : List String → Supported
  | mapping : List (String × String) → Supported
deriving DecidableEq

/-- The key set used for the error message (`set(supported)` rsp. the
mapping keys). -/
def Supported.keys : Supported → List String
  | .collection l => l
  | .mapping ps => ps.map (·.1)

/-- Render one option quoted, as Python `repr` does inside a set. -/
def renderOption (s : String) : String := quoteChar.toString ++ s ++ quoteChar.toString

/-- Render the Python set display of the options (iteration order is
modelled by list order). -/
def renderSet (l : List String) : String :=
  "\x7b" ++ strIntercalate ", " (l.map renderOption) ++ "\x7d"

/-- The fall-through of `look_up_option` once no match was found: return
`default` when one was supplied (the source uses the sentinel string
`"no_default"`, modelled as `Option.none`), otherwise raise `ValueError`
whose message lists the available options. -/
def look_up_option_fail (o : String) (supported : Supported) (default : Option String)
    (print_all_options : Bool) : Except String String :=
  match default with
  | some d => .ok d
  | none =>
    let set_to_check := supported.keys
    if set_to_check = [] then
      .error ("ValueError: No options available: " ++ renderSet set_to_check)
    else
      let support_msg :=
        if print_all_options then "Available options are " ++ renderSet set_to_check else ""
      .error ("ValueError: Unsupported option " ++ renderOption o ++ ", " ++ support_msg)

/-- Embedding of `look_up_option` for string candidates: strip the
candidate, then resolve by mapping key or collection membership; on a
miss defer to `look_up_option_fail`. -/
def look_up_option (opt_str : String) (supported : Supported) (default : Option String)
    (print_all_options : Bool) : Except String String :=
  let o := strTrim opt_str
  match supported with
  | .mapping ps =>
    match ps.find? (fun p => p.1 = o) with
    | some p => .ok p.2
    | none => look_up_option_fail o supported default print_all_options
  | .collection l =>
    if l.contains o then .ok o
    else look_up_option_fail o supported default print_all_options

/-! ## Embedding of `BaseProjects/apps/utils.py` -/

/-- `SUPPORTED_HASH_TYPES`: the mapping from algorithm name to digest
constructor; the constructor is represented by its algorithm tag, which
the abstract digest function `HashFn` consumes. -/
def SUPPORTED_HASH_TYPES : List (String × String) :=
  [("md5", "md5"), ("sha1", "sha1"), ("sha256", "sha256"), ("sha512", "sha512")]

/-- Abstract digest primitive: algorithm tag and file content to hex
digest (the third-party hashing library). -/
abbrev HashFn := String → String → String

/-- The readable files of the filesystem: path to content.  A path that
is absent models `open` raising. -/
abbrev Files := List (String × String)

/-- `open(p, "rb").read()`: `some` content, or `none` when opening raises. -/
def readFile? (files : Files) (p : String) : Option String :=
  (files.find? (fun q => q.1 = p)).map (·.2)

/-- Embedding of `check_hash`.  `val is None` short-circuits to `True`
BEFORE the algorithm name is validated; then the algorithm is resolved
via `look_up_option` over `SUPPORTED_HASH_TYPES` (which may raise), the
file is streamed (an unreadable file yields `False`), and the computed
digest is compared with `val`. -/
def check_hash (h : HashFn) (files : Files) (filepath : String) (val : Option String)
    (hash_type : String) : Except String Bool :=
  match val with
  | none => .ok true
  | some v =>
    match look_up_option hash_type (.mapping SUPPORTED_HASH_TYPES) none true with
    | .error e => .error e
    | .ok alg =>
      match readFile? files filepath with
      | none => .ok false
      | some content =>
        if v = h alg content then .ok true else .ok false

/-- Abstract network: URL to downloaded content, `none` when the transfer
fails.  The three provider paths of `download_url` (Google Drive via
`gdown`, the Yandex redirect host, and the direct `urlretrieve` path)
are all folded into this parameter, as is the temporary-directory /
`shutil.move` placement of the completed file. -/
abbrev Net := String → Option String

/-- Outcome of `download_url`: the call result, the filesystem after the
call, and whether any network access was performed. -/
structure DlOut where
  res : Except String Unit
  files : Files
  network : Bool

/-- Embedding of `download_url`.  When the destination file already
exists, `check_hash` decides between the skip short-circuit (no network
access, no write) and a `RuntimeError`; only otherwise is the network
touched, the file placed, and the fresh download verified. -/
def download_url (h : HashFn) (net : Net) (files : Files) (url : String) (filepath : String)
    (hash_val : Option String) (hash_type : String) : DlOut :=
  let fp := if filepath = "" then pyBasename url else filepath
  if (readFile? files fp).isSome then
    match check_hash h files fp hash_val hash_type with
    | .error e => ⟨.error e, files, false⟩
    | .ok false =>
      ⟨.error ("RuntimeError: " ++ hash_type ++ " check of existing file failed: filepath=" ++ fp),
        files, false⟩
    | .ok true => ⟨.ok (), files, false⟩
  else
    match net url with
    | none =>
      ⟨.error ("RuntimeError: Download of file from " ++ url ++ " to " ++ fp
        ++ " failed due to network issue or denied permission."), files, true⟩
    | some content =>
      let files2 := (fp, content) :: files
      match check_hash h files2 fp hash_val hash_type with
      | .error e => ⟨.error e, files2, true⟩
      | .ok false =>
        ⟨.error ("RuntimeError: " ++ hash_type ++ " check of downloaded file failed: URL=" ++ url),
          files2, true⟩
      | .ok true => ⟨.ok (), files2, true⟩

/-- The archive kinds `extractall` can select. -/
inductive ArchiveKind
  | zip
  | tar
deriving DecidableEq

/-- Environment of `extractall`: the existing directories with their
entry counts (absence means the directory does not exist), the readable
files (for the hash check), and whether opening/extracting a given
archive succeeds (third-party `zipfile`/`tarfile` behaviour). -/
structure ExtEnv where
  dirs : List (String × Nat)
  files : Files
  archiveOk : String → Bool

/-- `cache_dir.exists() and next(cache_dir.iterdir(), None) is not None`:
the directory exists and holds at least one entry. -/
def dirNonEmpty (env : ExtEnv) (d : String) : Bool :=
  match (env.dirs.find? (fun p => p.1 = d)).map (·.2) with
  | some n => decide (0 < n)
  | none => false

/-- The skip-check directory of `extractall`:
`Path(output_dir, _basename(filepath).split(".")[0])` when `has_base`,
else `Path(output_dir)`.  Note `split(".")[0]` truncates the basename at
its FIRST dot. -/
def cacheDirOf (filepath output_dir : String) (has_base : Bool) : String :=
  if has_base then pathJoin output_dir ((splitOnChar '.' (pyBasename filepath)).headD "")
  else output_dir

/-- The allowed-format list as rendered in the `NotImplementedError`
message of `extractall`. -/
def EXTRACT_ALLOWED : String :=
  "[" ++ renderOption "zip" ++ ", " ++ renderOption "tar.gz" ++ ", " ++ renderOption "tar" ++ "]"

/-- The `NotImplementedError` message of `extractall`. -/
def unsupportedMsg (filepath file_type : String) : String :=
  "NotImplementedError: Unsupported file type, available options are: "
    ++ EXTRACT_ALLOWED ++ (". name=" ++ filepath ++ ", type=" ++ file_type ++ ".")

/-- The hash stage of `extractall`: `if hash_val and not check_hash(...)`
raises `RuntimeError`; an empty or absent `hash_val` is falsy and skips
the check.  Returns whether `check_hash` was invoked. -/
def extract_hash_stage (h : HashFn) (env : ExtEnv) (filepath : String)
    (hash_val : Option String) (hash_type : String) : Except String Bool :=
  let hashTruthy : Bool := match hash_val with
    | some v => v != ""
    | none => false
  if hashTruthy then
    match check_hash h env.files filepath hash_val hash_type with
    | .error e => .error e
    | .ok false =>
      .error ("RuntimeError: " ++ hash_type ++ " check of compressed file failed: filepath="
        ++ filepath)
    | .ok true => .ok true
  else .ok false

/-- Outcome of `extractall`: the call result, which extraction (if any)
ran, and whether `check_hash` was invoked. -/
structure ExtOut where
  res : Except String Unit
  extracted : Option ArchiveKind
  hashChecked : Bool

/-- Embedding of `extractall`.  First the idempotence skip on a non-empty
cache directory; then the hash stage; then the kind selection exactly as
in the source: `filepath.name.endswith("zip") or _file_type == "zip"`
selects ZIP, else `endswith("tar") or endswith("tar.gz") or "tar" in
_file_type` selects TAR, else `NotImplementedError`. -/
def extractall (h : HashFn) (env : ExtEnv) (filepath output_dir : String)
    (hash_val : Option String) (hash_type : String) (file_type : String) (has_base : Bool) :
    ExtOut :=
  let cache_dir := cacheDirOf filepath output_dir has_base
  if dirNonEmpty env cache_dir then ⟨.ok (), none, false⟩
  else
    match extract_hash_stage h env filepath hash_val hash_type with
    | .error e => ⟨.error e, none, true⟩
    | .ok hc =>
      let name := pathName filepath
      let ft := strTrim (strToLower file_type)
      if strEndsWith name "zip" || ft == "zip" then
        if env.archiveOk filepath then ⟨.ok (), some .zip, hc⟩
        else ⟨.error ("BadZipFile: File is not a zip file: " ++ filepath), some .zip, hc⟩
      else if strEndsWith name "tar" || strEndsWith name "tar.gz" || strContains ft "tar" then
        if env.archiveOk filepath then ⟨.ok (), some .tar, hc⟩
        else ⟨.error ("ReadError: file could not be opened successfully: " ++ filepath),
          some .tar, hc⟩
      else
        ⟨.error (unsupportedMsg filepath file_type), none, hc⟩

/-! ## Embedding of `BaseProjects/utils/misc.py` (determinism controller) -/

/-- `NP_MAX = np.iinfo(np.uint32).max`. -/
def NP_MAX : Nat := 4294967295

/-- `MAX_SEED = NP_MAX + 1`. -/
def MAX_SEED : Nat := NP_MAX + 1

/-- The backend flags captured once at module load time
(`_flag_deterministic`, `_flag_cudnn_benchmark`). -/
structure DetFlags where
  flag_deterministic : Bool
  flag_cudnn_benchmark : Bool
deriving DecidableEq

/-- The process-wide state `set_determinism` mutates: the torch generator
seed, the seeds handed to `random.seed` and `np.random.seed` (where
`none` models passing `None`, i.e. reseeding from entropy), the module
global `_seed`, and the two cudnn flags. -/
structure DetState where
  torch_seed : Int
  random_seed : Option Int
  np_seed : Option Int
  recorded_seed : Option Int
  cudnn_deterministic : Bool
  cudnn_benchmark : Bool
deriving DecidableEq

/-- Embedding of `set_determinism` (seed handling and flag handling;
`additional_settings` callbacks and the frozen-flags warning are side
effects outside the seeded state and are not modelled).  `fresh` is the
value `torch.default_generator.seed()` would draw.  On the `None` path
only `torch.manual_seed(seed_)` receives the fresh draw; the variable
`seed` stays `None`, so `_seed`, `random.seed` and `np.random.seed` all
receive `None`, and the captured flags are restored. -/
def set_determinism (flags : DetFlags) (fresh : Nat) (seed : Option Int) (st : DetState) :
    DetState :=
  match seed with
  | none =>
    let seed_ : Nat := fresh % MAX_SEED
    { st with
      torch_seed := (seed_ : Int),
      recorded_seed := none,
      random_seed := none,
      np_seed := none,
      cudnn_deterministic := flags.flag_deterministic,
      cudnn_benchmark := flags.flag_cudnn_benchmark }
  | some s =>
    let s2 : Int := s % (MAX_SEED : Int)
    { st with
      torch_seed := s2,
      recorded_seed := some s2,
      random_seed := some s2,
      np_seed := some s2,
      cudnn_deterministic := true,
      cudnn_benchmark := false }

/-! ## Embedding of `BaseProjects/config/deviceconfig.py` -/

/-- The substitute value of `_dict_append` when the probe raises. -/
def UNKNOWN_MARKER : String := "UNKNOWN for given OS"

/-- A platform probe: the value it would produce, or the exception it
would raise. -/
abbrev Probe := Except String String

/-- Embedding of `_dict_append`: evaluate the probe and append the value,
substituting `UNKNOWN_MARKER` when it raises (`except BaseException`). -/
def dict_append (d : List (String × String)) (key : String) (fn : Probe) :
    List (String × String) :=
  match fn with
  | .ok v => d ++ [(key, v)]
  | .error _ => d ++ [(key, UNKNOWN_MARKER)]

/-- The host environment `get_system_info` probes: the platform calls,
the content of `/etc/os-release` (`none` when the file is absent, so
`open` raises), and the `psutil` block (modelled as labelled probes,
each appended through `_dict_append`). -/
structure SysEnv where
  system : Probe
  win32_ver : Probe
  has_win32_edition : Bool
  win32_edition : Probe
  mac_ver : Probe
  os_release : Option String
  platform : Probe
  processor : Probe
  machine : Probe
  python_version : Probe
  has_psutil : Bool
  psutil_entries : List (String × Probe)

/-- Split a character list at the first position where `needle` occurs:
the part before and the part after the occurrence. -/
def splitFirstAux (needle : List Char) (acc : List Char) :
    List Char → Option (String × String)
  | [] => none
  | c :: cs =>
    if needle.isPrefixOf (c :: cs) then
      some (String.mk acc.reverse, String.mk ((c :: cs).drop needle.length))
    else splitFirstAux needle (c :: acc) cs

/-- Split `s` at the first occurrence of the nonempty `sep`: the part
before and the part after, or `none` when `sep` does not occur. -/
def splitFirst (s sep : String) : Option (String × String) :=
  splitFirstAux sep.data [] s.data

/-- `re.search(r'PRETTY_NAME="(.*)"', content)`: `.` does not match a
newline, so per line: find the first occurrence of `PRETTY_NAME="` and
capture greedily up to the LAST closing quote on that line; no closing
quote means no match on that line. -/
def findPrettyName (content : String) : Option String :=
  (splitOnChar '\n' content).findSome? (fun line =>
    match splitFirst line ("PRETTY_NAME=" ++ "\"") with
    | none => none
    | some (_, rest) =>
      let parts := splitOnChar '\"' rest
      if parts.length ≥ 2 then some (strIntercalate "\"" parts.dropLast) else none)

/-- Embedding of `get_system_info`.  Every entry goes through
`_dict_append`, EXCEPT the Linux branch: `open("/etc/os-release")` is
executed unguarded, so an absent file raises `FileNotFoundError` out of
the whole function; when the file is present but `PRETTY_NAME` is not
found, the entry is simply omitted. -/
def get_system_info (env : SysEnv) : Except String (List (String × String)) :=
  let o0 := dict_append [] "System" env.system
  let sysVal := (((o0.find? (fun p => p.1 = "System")).map (·.2)).getD "")
  let branch : Except String (List (String × String)) :=
    if sysVal = "Windows" then
      let o1 := dict_append o0 "Win32 version" env.win32_ver
      .ok (if env.has_win32_edition then dict_append o1 "Win32 edition" env.win32_edition else o1)
    else if sysVal = "Darwin" then
      .ok (dict_append o0 "Mac version" env.mac_ver)
    else
      match env.os_release with
      | none => .error "FileNotFoundError: /etc/os-release"
      | some content =>
        match findPrettyName content with
        | some v => .ok (dict_append o0 "Linux version" (.ok v))
        | none => .ok o0
  match branch with
  | .error e => .error e
  | .ok o1 =>
    let o2 := dict_append o1 "Plaform" env.platform
    let o3 := dict_append o2 "Processor" env.processor
    let o4 := dict_append o3 "Machine" env.machine
    let o5 := dict_append o4 "Python version" env.python_version
    if env.has_psutil then
      .ok (env.psutil_entries.foldl (fun acc p => dict_append acc p.1 p.2) o5)
    else
      .ok (dict_append o5 "`psutil` missing" (.ok "run `pip install psutil`"))

/-- Where a `print` call wrote: to the `file` argument of
`print_debug_info`, or to the process standard output (a `print` call
with no `file=` keyword). -/
inductive Dest
  | file
  | stdout
deriving DecidableEq

/-- The banner line of `print_debug_info` (32 `=` characters). -/
def BANNER : String := "================================"

/-- Embedding of `print_debug_info` as the sequence of emitted lines with
their destinations.  The three sub-reports (`print_config`,
`print_system_info`, `print_gpu_info`) all receive the `file` argument
and are abstracted as line lists.  In the source, the two titles
"Printing system config..." and "Printing GPU config..." are printed
WITHOUT `file=file` and therefore go to the process standard output. -/
def print_debug_info (config_lines system_lines gpu_lines : List String) :
    List (Dest × String) :=
  [(Dest.file, BANNER), (Dest.file, "Printing MONAI config..."), (Dest.file, BANNER)]
  ++ config_lines.map (fun s => (Dest.file, s))
  ++ [(Dest.file, "\n" ++ BANNER), (Dest.stdout, "Printing system config..."),
      (Dest.file, BANNER)]
  ++ system_lines.map (fun s => (Dest.file, s))
  ++ [(Dest.file, "\n" ++ BANNER), (Dest.stdout, "Printing GPU config..."),
      (Dest.file, BANNER)]
  ++ gpu_lines.map (fun s => (Dest.file, s))

/-- The lines a capturing stream passed as the `file` argument receives
(the stream is distinct from the process standard output). -/
def capturedLines (evs : List (Dest × String)) : List String :=
  evs.filterMap (fun p => match p.1 with | .file => some p.2 | .stdout => none)

/-! ## Shared lemmas -/

/-- The raised message of a modelled call (empty for a normal return). -/
def errMsg {α : Type} : Except String α → String
  | .error m => m
  | .ok _ => ""

/-- `min_version` with an empty requirement string never parses anything
and returns `True`. -/
theorem min_version_empty (obj : PyObj) : min_version obj "" = .ok true := by
  obtain ⟨v⟩ := obj
  cases v <;> rfl

/-- `optional_import` with an empty version requirement never raises:
every exception inside the `try` is caught and the `min_version` call
takes its always-`True` branch. -/
theorem optional_import_empty_version_ok (env : PyEnv) (m n : String) :
    raisesError (optional_import env m "" n) = false := by
  cases h : importModule env m with
  | none => simp [optional_import, h, raisesError]
  | some pkg =>
    by_cases hns : pkg.isNamespace
    · simp [optional_import, h, hns, raisesError]
    · cases hm : (if n = "" then some pkg.obj
          else (pkg.attrs.find? (fun p => p.1 = n)).map (·.2)) with
      | none => simp [optional_import, h, hns, hm, raisesError]
      | some obj => simp [optional_import, h, hns, hm, min_version_empty, raisesError]

/-- Appending through `_dict_append` adds exactly the given key, whether
the probe succeeds or raises. -/
theorem dict_append_keys (d : List (String × String)) (k : String) (f : Probe) :
    (dict_append d k f).map Prod.fst = d.map Prod.fst ++ [k] := by
  cases f <;> simp [dict_append]

/-! ## Claims -/

/-- Claim C10 (confirmed): for every file path (readable or not) and
every algorithm-name string (supported or not), `check_hash` with an
absent expected digest returns `True` without raising — the skip
short-circuit precedes the algorithm-name validation. -/
theorem check_hash_skips_absent_digest (h : HashFn) (files : Files)
    (filepath hash_type : String) :
    check_hash h files filepath none hash_type = .ok true := rfl

/-- Claim C4 (confirmed): `look_up_option` returns a member of the
collection unchanged; an unmatched candidate with no default raises an
unsupported-option `ValueError` whose message mentions both `red` and
`blue`; an unmatched candidate with a default returns the default
without raising. -/
theorem look_up_option_red_blue_cases :
    look_up_option "red" (.collection ["red", "blue"]) none true = .ok "red"
  ∧ raisesError (look_up_option "green" (.collection ["red", "blue"]) none true) = true
  ∧ strContains (errMsg (look_up_option "green" (.collection ["red", "blue"]) none true))
      "red" = true
  ∧ strContains (errMsg (look_up_option "green" (.collection ["red", "blue"]) none true))
      "blue" = true
  ∧ look_up_option "green" (.collection ["red", "blue"]) (some "blue") true = .ok "blue" := by
  refine ⟨rfl, rfl, ?_, ?_, rfl⟩ <;> decide

/-- Claim C9 counterexample (corrected): for an absent package the
default string returned by `get_package_version` is the source literal
`"NOT INSTALL or UNKNOWN VERSION."`, which is not the claimed
`"NOT INSTALLED or UNKNOWN VERSION."`. -/
theorem get_package_version_default_cex :
    get_package_version [] "some_absent_package" GET_PACKAGE_VERSION_DEFAULT
      = .ok "NOT INSTALL or UNKNOWN VERSION."
  ∧ GET_PACKAGE_VERSION_DEFAULT ≠ "NOT INSTALLED or UNKNOWN VERSION." := by
  exact ⟨rfl, by decide⟩

/-- Claim C9 as amended: for every dependency name, `get_package_version`
returns (without ever raising) the version string when the package
imports, is not a namespace package, and exposes a `__version__`, and
otherwise returns the default, whose source-code value is
`"NOT INSTALL or UNKNOWN VERSION."`. -/
theorem get_package_version_characterization (env : PyEnv) (dep_name d : String) :
    get_package_version env dep_name d =
      .ok (match importModule env dep_name with
           | some m =>
             if m.isNamespace then d
             else
               match m.obj.version? with
               | some v => v
               | none => d
           | none => d) := by
  cases h : importModule env dep_name with
  | none => simp [get_package_version, optional_import, h]
  | some m =>
    by_cases hns : m.isNamespace
    · simp [get_package_version, optional_import, h, hns]
    · cases hv : m.obj.version? with
      | none => simp [get_package_version, optional_import, h, hns, min_version_empty, hv]
      | some v => simp [get_package_version, optional_import, h, hns, min_version_empty, hv]

/-- Claim C1 counterexample (corrected): `min_version` raises a
`ValueError` on a non-numeric requirement string, and `optional_import`
propagates it, because the `min_version` call sits outside the
`try`/`except` block. -/
theorem min_version_raises_cex :
    raisesError (min_version ⟨some "1.0"⟩ "a") = true
  ∧ raisesError (optional_import [("m", ⟨⟨some "1.0"⟩, false, []⟩)] "m" "a" "") = true := by
  exact ⟨rfl, rfl⟩

/-- Claim C1 as amended: `get_package_version` never raises;
`optional_import` never raises when no minimum version is requested;
`min_version` never raises when the requirement is empty, when the
module exposes no version, or when both version strings parse — but a
non-numeric component among the first two of either string makes
`min_version` (and hence `optional_import` with that requirement)
raise a `ValueError`. -/
theorem module_import_helpers_amended :
    (∀ (env : PyEnv) (dep d : String), raisesError (get_package_version env dep d) = false)
  ∧ (∀ (env : PyEnv) (m n : String), raisesError (optional_import env m "" n) = false)
  ∧ (∀ (obj : PyObj), min_version obj "" = .ok true)
  ∧ (∀ (r : String), min_version ⟨none⟩ r = .ok true)
  ∧ (∀ (v r : String), raisesError (parseVersionPrefix2 v) = false →
      raisesError (parseVersionPrefix2 r) = false →
      raisesError (min_version ⟨some v⟩ r) = false) := by
  refine ⟨?_, optional_import_empty_version_ok, min_version_empty, fun r => rfl, ?_⟩
  · intro env dep d
    rw [get_package_version_characterization]
    rfl
  · intro v r hv hr
    by_cases h : r = ""
    · simp [min_version, h, raisesError]
    · cases hpv : parseVersionPrefix2 v with
      | error e => rw [hpv] at hv; exact absurd hv (by simp [raisesError])
      | ok l =>
        cases hpr : parseVersionPrefix2 r with
        | error e => rw [hpr] at hr; exact absurd hr (by simp [raisesError])
        | ok l2 =>
          simp only [min_version, h, hpv, hpr]
          rfl

/-- Witness for the amended claim C1, at a concrete well-formed pair of
version strings. -/
theorem module_import_helpers_amended_witness :
    raisesError (min_version ⟨some "1.0"⟩ "2.1") = false :=
  module_import_helpers_amended.2.2.2.2 "1.0" "2.1" (by decide) (by decide)

/-- A substring bracketed by arbitrary text on both sides is found by
`strContains`. -/
theorem strContains_append (a b c : String) : strContains (a ++ b ++ c) b = true := by
  unfold strContains
  rw [List.any_eq_true]
  refine ⟨a.length, List.mem_range.mpr ?_, ?_⟩
  · have hlen : (a ++ b ++ c).length = a.length + b.length + c.length := by
      simp [String.length_append]
    omega
  · have hdata : (a ++ b ++ c).data = a.data ++ (b.data ++ c.data) := by
      simp [String.data_append]
    have hal : a.length = a.data.length := rfl
    rw [hdata, hal, List.drop_left]
    exact List.isPrefixOf_iff_prefix.mpr (List.prefix_append _ _)

/-- Claim C2 (confirmed): when the destination file already exists,
`download_url` performs no network access and leaves the filesystem
unchanged; it returns normally when no hash is given or the existing
content matches the expected digest, and raises the integrity
`RuntimeError` (still without network access or overwrite) when the
digest differs. -/
theorem download_url_existing_file (h : HashFn) (net : Net) (files : Files)
    (url fp : String) (hash_val : Option String) (hash_type content : String)
    (hfp : fp ≠ "") (hex : readFile? files fp = some content) :
    (hash_val = none →
      download_url h net files url fp hash_val hash_type = ⟨.ok (), files, false⟩)
  ∧ (∀ alg, look_up_option hash_type (.mapping SUPPORTED_HASH_TYPES) none true = .ok alg →
      (hash_val = some (h alg content) →
        download_url h net files url fp hash_val hash_type = ⟨.ok (), files, false⟩)
    ∧ (∀ v, hash_val = some v → v ≠ h alg content →
        download_url h net files url fp hash_val hash_type =
          ⟨.error ("RuntimeError: " ++ hash_type
              ++ " check of existing file failed: filepath=" ++ fp),
            files, false⟩)) := by
  have hex2 : (readFile? files fp).isSome = true := by rw [hex]; rfl
  constructor
  · rintro rfl
    simp [download_url, hfp, hex2, check_hash]
  · intro alg halg
    constructor
    · rintro rfl
      simp [download_url, hfp, hex2, check_hash, halg, hex]
    · rintro v rfl hne
      simp [download_url, hfp, hex2, check_hash, halg, hex, hne]

/-- Witness for claim C2, with an existing matching file: the download
is skipped, no network access happens, and the filesystem is unchanged. -/
theorem download_url_existing_file_witness :
    download_url (fun a c => a ++ c) (fun _ => none) [("f", "X")] "u" "f"
        (some "md5X") "md5" = ⟨.ok (), [("f", "X")], false⟩ :=
  ((download_url_existing_file (fun a c => a ++ c) (fun _ => none) [("f", "X")] "u" "f"
      (some "md5X") "md5" "X" (by decide) rfl).2 "md5" rfl).1 rfl

/-- Modelled from the claim wording of C3: the basename with its (final)
extension removed, as `os.path.splitext` / `Path.stem` compute it. -/
def basenameWithoutExtension (p : String) : String :=
  let b := pyBasename p
  let parts := splitOnChar '.' b
  if parts.length ≤ 1 then b else strIntercalate "." parts.dropLast

/-- Claim C3 counterexample (corrected): for the archive
`v1.2-data.zip` the code consults `out/v1` — the basename truncated at
its FIRST dot — not `out/v1.2-data` (the basename without its
extension).  With `out/v1.2-data` present and non-empty, the claim
predicts a skip, but the code proceeds and runs the ZIP extraction. -/
theorem extractall_cache_dir_cex :
    (extractall (fun a c => a ++ c) ⟨[("out/v1.2-data", 3)], [], fun _ => true⟩
        "v1.2-data.zip" "out" none "md5" "" true).extracted = some ArchiveKind.zip
  ∧ dirNonEmpty ⟨[("out/v1.2-data", 3)], [], fun _ => true⟩
      (pathJoin "out" (basenameWithoutExtension "v1.2-data.zip")) = true
  ∧ cacheDirOf "v1.2-data.zip" "out" true = "out/v1" := by
  refine ⟨?_, ?_, ?_⟩ <;> decide

/-- Claim C3 as amended: the skip-check root is `output_dir` joined with
the archive basename truncated at its first dot (when `has_base`), else
`output_dir` itself; whenever that directory exists and holds at least
one entry, `extractall` performs no extraction and no hash check and
returns without error, regardless of the archive or digest supplied. -/
theorem extractall_skips_nonempty_cache (h : HashFn) (env : ExtEnv)
    (filepath output_dir : String) (hash_val : Option String)
    (hash_type file_type : String) (has_base : Bool)
    (hne : dirNonEmpty env (cacheDirOf filepath output_dir has_base) = true) :
    extractall h env filepath output_dir hash_val hash_type file_type has_base
      = ⟨.ok (), none, false⟩ := by
  unfold extractall
  simp [hne]

/-- Witness for amended claim C3: a non-empty `out/a` makes the call on
`a.zip` return at once, although the hash is wrong, the algorithm name
unsupported, and the archive unreadable. -/
theorem extractall_skips_nonempty_cache_witness :
    extractall (fun a c => a ++ c) ⟨[("out/a", 3)], [], fun _ => false⟩
        "a.zip" "out" (some "bogus") "not_an_algo" "" true = ⟨.ok (), none, false⟩ :=
  extractall_skips_nonempty_cache _ _ _ _ _ _ _ _ (by decide)

/-- Claim C5 counterexample (corrected): with the explicit override
`"tar"` on a file named `a.zip`, the claim selects TAR extraction, but
the source tests the filename suffix in the same disjunction
(`filepath.name.endswith("zip") or _file_type == "zip"`), so ZIP
extraction runs. -/
theorem extractall_kind_override_cex :
    (extractall (fun a c => a ++ c) ⟨[], [], fun _ => true⟩
        "a.zip" "out" none "md5" "tar" true).extracted = some ArchiveKind.zip
  ∧ some ArchiveKind.zip ≠ some ArchiveKind.tar := by
  exact ⟨by decide, by decide⟩

/-- Claim C5 as amended: on the non-skip path (after a passing hash
stage), ZIP extraction is selected when the filename ends in `zip` OR
the trimmed lower-cased override equals `zip`; otherwise TAR extraction
is selected when the filename ends in `tar` or `tar.gz` OR the override
contains `tar`; otherwise `extractall` raises a `NotImplementedError`
naming exactly `zip`, `tar.gz` and `tar`.  The filename suffix is tested
together with — not after — the override, so a `zip`-suffixed filename
selects ZIP even when the override says `tar`. -/
theorem extractall_kind_selection (h : HashFn) (env : ExtEnv)
    (filepath output_dir : String) (hash_val : Option String)
    (hash_type file_type : String) (has_base : Bool) (hc : Bool)
    (hskip : dirNonEmpty env (cacheDirOf filepath output_dir has_base) = false)
    (hhash : extract_hash_stage h env filepath hash_val hash_type = .ok hc) :
    ((strEndsWith (pathName filepath) "zip"
        || strTrim (strToLower file_type) == "zip") = true →
      (extractall h env filepath output_dir hash_val hash_type file_type has_base).extracted
        = some ArchiveKind.zip)
  ∧ ((strEndsWith (pathName filepath) "zip"
        || strTrim (strToLower file_type) == "zip") = false →
     (strEndsWith (pathName filepath) "tar" || strEndsWith (pathName filepath) "tar.gz"
        || strContains (strTrim (strToLower file_type)) "tar") = true →
      (extractall h env filepath output_dir hash_val hash_type file_type has_base).extracted
        = some ArchiveKind.tar)
  ∧ ((strEndsWith (pathName filepath) "zip"
        || strTrim (strToLower file_type) == "zip") = false →
     (strEndsWith (pathName filepath) "tar" || strEndsWith (pathName filepath) "tar.gz"
        || strContains (strTrim (strToLower file_type)) "tar") = false →
      (extractall h env filepath output_dir hash_val hash_type file_type has_base)
          = ⟨.error (unsupportedMsg filepath file_type), none, hc⟩
        ∧ strContains (unsupportedMsg filepath file_type) EXTRACT_ALLOWED = true) := by
  refine ⟨?_, ?_, ?_⟩
  · intro hz
    cases harc : env.archiveOk filepath <;>
      simp [extractall, hskip, hhash, hz, harc]
  · intro hz ht
    cases harc : env.archiveOk filepath <;>
      simp [extractall, hskip, hhash, hz, ht, harc]
  · intro hz ht
    refine ⟨by simp [extractall, hskip, hhash, hz, ht], ?_⟩
    exact strContains_append
      "NotImplementedError: Unsupported file type, available options are: "
      EXTRACT_ALLOWED (". name=" ++ filepath ++ ", type=" ++ file_type ++ ".")

/-- Witness for amended claim C5: a `b.tar` archive with no override
selects TAR extraction. -/
theorem extractall_kind_selection_witness :
    (extractall (fun a c => a ++ c) ⟨[], [], fun _ => true⟩
        "b.tar" "out" none "md5" "" true).extracted = some ArchiveKind.tar :=
  (extractall_kind_selection (fun a c => a ++ c) ⟨[], [], fun _ => true⟩
      "b.tar" "out" none "md5" "" true false (by decide) rfl).2.1 (by decide) (by decide)

/-- Claim C6 counterexample (corrected): calling `set_determinism` with
an absent seed leaves the recorded process-wide seed absent and reseeds
the process and numeric-array generators with the absent marker — the
fresh draw (123, reduced modulo `MAX_SEED`) reaches only the tensor
runtime generator, contrary to the claim. -/
theorem set_determinism_none_cex :
    set_determinism ⟨false, true⟩ 123 none ⟨0, some 0, some 0, some 7, false, true⟩
      = ⟨123, none, none, none, false, true⟩
  ∧ (none : Option Int) ≠ some ((123 % MAX_SEED : Nat) : Int) := by
  exact ⟨rfl, by decide⟩

/-- Claim C6 as amended: on the absent-seed path the fresh draw reduced
modulo `MAX_SEED` is applied only to the tensor-runtime generator; the
process random generator and the numeric-array generator are reseeded
with the absent marker, the recorded seed state becomes absent, and the
captured cudnn flags are restored.  On the supplied-seed path the seed
reduced modulo `MAX_SEED` is applied identically to all three
generators and recorded. -/
theorem set_determinism_seed_paths (flags : DetFlags) (fresh : Nat) (s : Int)
    (st : DetState) :
    (set_determinism flags fresh none st).torch_seed = ((fresh % MAX_SEED : Nat) : Int)
  ∧ (set_determinism flags fresh none st).recorded_seed = none
  ∧ (set_determinism flags fresh none st).random_seed = none
  ∧ (set_determinism flags fresh none st).np_seed = none
  ∧ (set_determinism flags fresh none st).cudnn_deterministic = flags.flag_deterministic
  ∧ (set_determinism flags fresh none st).cudnn_benchmark = flags.flag_cudnn_benchmark
  ∧ (set_determinism flags fresh (some s) st).torch_seed = s % (MAX_SEED : Int)
  ∧ (set_determinism flags fresh (some s) st).recorded_seed = some (s % (MAX_SEED : Int))
  ∧ (set_determinism flags fresh (some s) st).random_seed = some (s % (MAX_SEED : Int))
  ∧ (set_determinism flags fresh (some s) st).np_seed = some (s % (MAX_SEED : Int))
  ∧ (set_determinism flags fresh (some s) st).cudnn_deterministic = true
  ∧ (set_determinism flags fresh (some s) st).cudnn_benchmark = false := by
  exact ⟨rfl, rfl, rfl, rfl, rfl, rfl, rfl, rfl, rfl, rfl, rfl, rfl⟩

/-- Claim C7 counterexample (corrected): on a Linux-like host with
`/etc/os-release` absent, `get_system_info` raises — the `open` call in
the Linux branch is not guarded by `_dict_append` — so the whole report
is aborted instead of the entry being omitted. -/
theorem get_system_info_absent_file_cex :
    raisesError (get_system_info
      ⟨.ok "Linux", .error "e", false, .error "e", .error "e", none,
        .ok "plat", .ok "proc", .ok "mach", .ok "3.9.0", false, []⟩) = true := by
  decide

/-- Claim C7 as amended: every entry built through `_dict_append` is
guarded (a failing probe yields the `UNKNOWN for given OS` value rather
than an error), and on a Linux-like host whose `/etc/os-release` exists
but contains no `PRETTY_NAME` field the `Linux version` entry is
omitted and the rest of the report is produced; but when the file is
absent, the unguarded `open` aborts `get_system_info` with an error
(see the counterexample). -/
theorem get_system_info_no_pretty_name (env : SysEnv) (content sysName : String)
    (hsys : env.system = Except.ok sysName)
    (hw : sysName ≠ "Windows") (hd : sysName ≠ "Darwin")
    (hos : env.os_release = some content) (hpn : findPrettyName content = none)
    (hps : env.has_psutil = false) :
    ∃ l, get_system_info env = Except.ok l
      ∧ l.map Prod.fst
          = ["System", "Plaform", "Processor", "Machine", "Python version",
             "`psutil` missing"] := by
  have hmain : get_system_info env = Except.ok
      (dict_append (dict_append (dict_append (dict_append
        (dict_append (dict_append [] "System" env.system) "Plaform" env.platform)
        "Processor" env.processor) "Machine" env.machine)
        "Python version" env.python_version)
        "`psutil` missing" (.ok "run `pip install psutil`")) := by
    unfold get_system_info
    rw [hsys, hos, hps]
    simp [dict_append, hw, hd, hpn]
  refine ⟨_, hmain, ?_⟩
  simp [dict_append_keys]

/-- Witness for amended claim C7: a concrete Linux-like environment with
an os-release file lacking `PRETTY_NAME` and one failing probe still
yields the full report without a `Linux version` entry. -/
theorem get_system_info_no_pretty_name_witness :
    ∃ l, get_system_info
        ⟨Except.ok "Linux", Except.error "e", false, Except.error "e", Except.error "e",
          some "NAME=test", Except.ok "p", Except.error "boom", Except.ok "m",
          Except.ok "3.9", false, []⟩ = Except.ok l
      ∧ l.map Prod.fst
          = ["System", "Plaform", "Processor", "Machine", "Python version",
             "`psutil` missing"] :=
  get_system_info_no_pretty_name _ "NAME=test" "Linux" rfl (by decide) (by decide)
    rfl (by decide) rfl

/-- Claim C8 (code bug): `print_debug_info` prints the banners and the
first section title to the `file` argument, but the titles
"Printing system config..." and "Printing GPU config..." are printed
without `file=file` and go to the process standard output, so a
capturing stream receives only one of the three section titles — the
claimed three-banner-delimited capture does not happen. -/
theorem print_debug_info_stream_bug :
    ((Dest.stdout, "Printing system config...")
        ∈ print_debug_info ["MONAI version: 1.0"] ["System: Linux"] ["Num GPUs: 0"])
  ∧ ((Dest.stdout, "Printing GPU config...")
        ∈ print_debug_info ["MONAI version: 1.0"] ["System: Linux"] ["Num GPUs: 0"])
  ∧ ¬ ("Printing system config..."
        ∈ capturedLines (print_debug_info ["MONAI version: 1.0"] ["System: Linux"] ["Num GPUs: 0"]))
  ∧ ¬ ("Printing GPU config..."
        ∈ capturedLines (print_debug_info ["MONAI version: 1.0"] ["System: Linux"] ["Num GPUs: 0"]))
  ∧ ("Printing MONAI config..."
        ∈ capturedLines (print_debug_info ["MONAI version: 1.0"] ["System: Linux"] ["Num GPUs: 0"]))
  ∧ BANNER.length = 32 := by
  refine ⟨?_, ?_, ?_, ?_, ?_, ?_⟩ <;> decide
